import Mathlib

/-!
# SObjectizer execution core — verification of spec claims

A shallow embedding of the parts of the SObjectizer-5 execution core that the
spec claims talk about, together with proofs settling each claim.

Modelled source files:
* `so_5/rt/impl/h/local_event_queue.hpp` — the agent's local event queue.
* `so_5/details/h/sync_helpers.hpp` — lock holder mixins and their selector.
* `so_5/rt/h/agent.hpp` — agent data, subscription binding, delivery filters,
  demand handlers (bodies that live in `agent.cpp` are modelled from the spec).
* the work-thread demand queue header (`demand_queue_t`, bodies modelled from
  the spec).
* the cooperation registry notifications (modelled from the spec, exercised by
  `sample/so_5/coop_notification/main.cpp`).

Machine integers do not overflow in any modelled operation, so identifiers are
`Nat`.  Fallible operations return `Except` over an explicit error-code type.
-/

namespace SO5

/-! ## Error codes (`so_5/h/ret_code.hpp` is not in the sources; the codes the
claims mention are modelled as an enumeration). -/

/-- Error codes surfaced by the modelled operations. -/
inductive rc_t
  /-- An event handler for this (mbox, message type, state) already exists. -/
  | rc_evt_handler_already_provided
  /-- The state passed to `so_change_state`/`subscription_bind_t::in` is owned
  by another agent. -/
  | rc_agent_is_not_the_state_owner
  /-- Operation attempted outside the agent's working thread. -/
  | rc_operation_enabled_only_on_agent_working_thread
  /-- A delivery filter cannot be set for a signal. -/
  | rc_delivery_filter_cannot_be_used_for_signal
deriving DecidableEq, Repr

/-! ## C1 — agent's local event queue (`local_event_queue.hpp`)

`event_item_t` holds an event-caller block reference and a message reference;
both are reference-counted handles in the source and are modelled as plain
identifiers.  `local_event_queue_t` wraps a `std::deque< event_item_t >`. -/

/-- `event_item_t`: one queued event (caller block + message). -/
structure event_item_t where
  m_event_caller_block : Nat
  m_message_ref : Nat
deriving DecidableEq, Repr

/-- `local_event_queue_t`: the per-agent FIFO of event items, backed by a
`std::deque` (`m_events_queue`).  The mutex fields only guard concurrent
access and carry no queue semantics, so they are not part of the model. -/
structure local_event_queue_t where
  m_events_queue : List event_item_t
deriving DecidableEq, Repr

/-- `local_event_queue_t::push`: `m_events_queue.push_back( evt )`. -/
def local_event_queue_t.push
    (q : local_event_queue_t) (evt : event_item_t) : local_event_queue_t :=
  { q with m_events_queue := q.m_events_queue ++ [evt] }

/-- `local_event_queue_t::pop`: reads `m_events_queue.front()` and then
`pop_front()`.  Calling it on an empty deque is undefined behaviour in the
source, hence the `Option`. -/
def local_event_queue_t.pop
    (q : local_event_queue_t) : Option (event_item_t × local_event_queue_t) :=
  match q.m_events_queue with
  | [] => none
  | e :: rest => some (e, { q with m_events_queue := rest })

/-- `local_event_queue_t::size`. -/
def local_event_queue_t.size (q : local_event_queue_t) : Nat :=
  q.m_events_queue.length

/-- `local_event_queue_t::clear`. -/
def local_event_queue_t.clear (q : local_event_queue_t) : local_event_queue_t :=
  { q with m_events_queue := [] }

/-- A sequence of `push` calls, first element pushed first. -/
def local_event_queue_t.push_all
    (q : local_event_queue_t) (evts : List event_item_t) : local_event_queue_t :=
  evts.foldl local_event_queue_t.push q

/-- Repeatedly `pop` at most `fuel` times, collecting the extracted items in
extraction order. -/
def local_event_queue_t.drain_fuel :
    Nat → local_event_queue_t → List event_item_t
  | 0, _ => []
  | fuel + 1, q =>
    match q.pop with
    | none => []
    | some (e, q2) => e :: local_event_queue_t.drain_fuel fuel q2

/-- Pop every item of the queue, in extraction order. -/
def local_event_queue_t.drain (q : local_event_queue_t) : List event_item_t :=
  local_event_queue_t.drain_fuel q.size q

/-! ## C10 — lock holder mixins (`sync_helpers.hpp`) -/

/-- A lock type as used through `std::lock_guard`: how `lock`/`unlock` act on
the mutex state `σ`. -/
structure lock_ops_t (σ : Type) where
  lock : σ → σ
  unlock : σ → σ

/-- `so_5::null_mutex_t`: `lock()` and `unlock()` do nothing; the class holds
no state, modelled as `Unit`. -/
def null_mutex_t : lock_ops_t Unit :=
  { lock := fun m => m, unlock := fun m => m }

/-- `std::mutex` as used single-threadedly: a locked flag. -/
def std_mutex : lock_ops_t Bool :=
  { lock := fun _ => true, unlock := fun _ => false }

/-- `actual_lock_holder_t<LOCK_TYPE>::lock_and_perform( l )`: acquires
`m_lock` via `std::lock_guard`, runs `l()`, releases on scope exit; returns
`l()`'s value.  The mutex state is threaded explicitly. -/
def actual_lock_holder_t.lock_and_perform {σ α : Type}
    (L : lock_ops_t σ) (m_lock : σ) (l : Unit → α) : α × σ :=
  let locked := L.lock m_lock
  let r := l ()
  (r, L.unlock locked)

/-- `no_lock_holder_t::lock_and_perform( l )`: just `return l();`. -/
def no_lock_holder_t.lock_and_perform {α : Type} (l : Unit → α) : α :=
  l ()

/-- The lock types the library instantiates the holder mixins with. -/
inductive lock_type_t
  | std_mutex
  | null_mutex
deriving DecidableEq, Repr

/-- Which holder mixin `lock_holder_detector<LOCK_TYPE>::type` names. -/
inductive lock_holder_kind_t
  | actual_lock_holder
  | no_lock_holder
deriving DecidableEq, Repr

/-- `lock_holder_detector`: the primary template selects
`actual_lock_holder_t<LOCK_TYPE>`; the specialization for `null_mutex_t`
selects `no_lock_holder_t`. -/
def lock_holder_detector : lock_type_t → lock_holder_kind_t
  | .null_mutex => .no_lock_holder
  | .std_mutex => .actual_lock_holder

/-! ## Agent model (`agent.hpp`)

Identities that are pointers in the source (agents, handlers, messages,
delivery filter objects) are modelled as `Nat`. -/

/-- Thread safety marker of an event handler. -/
inductive thread_safety_t
  | not_thread_safe
  | thread_safe
deriving DecidableEq, Repr

/-- A message type: its `std::type_index` plus whether the type is a signal
(derives `so_5::signal_t`, empty payload). -/
structure msg_type_t where
  m_index : Nat
  m_signal : Bool
deriving DecidableEq, Repr

/-- `state_t`: a state owned by exactly one agent (`m_target_agent` is the
owner, a pointer in the source) with an identity unique within the agent. -/
structure state_t where
  m_target_agent : Nat
  m_state_id : Nat
deriving DecidableEq, Repr

/-- `state_t::is_target`: does this state belong to the given agent? -/
def state_t.is_target (s : state_t) (agent : Nat) : Bool :=
  s.m_target_agent == agent

/-- Key of a subscription record: `(mbox id, message type, state)`. -/
structure subscr_key_t where
  m_mbox_id : Nat
  m_msg_type : Nat
  m_state : Nat
deriving DecidableEq, Repr

/-- `event_handler_data_t`: the type-erased handler plus its thread safety. -/
structure event_handler_data_t where
  m_method : Nat
  m_thread_safety : thread_safety_t
deriving DecidableEq, Repr

/-- Per-agent subscription storage: records keyed by
`(mbox id, message type, state)`. -/
structure subscription_storage_t where
  m_events : List (subscr_key_t × event_handler_data_t)
deriving DecidableEq, Repr

/-- Is there a record for this key? -/
def subscription_storage_t.has_subscription
    (s : subscription_storage_t) (k : subscr_key_t) : Bool :=
  s.m_events.any (fun p => p.1 == k)

/-- Modelled from the spec: the `insert` operation of the subscription
storage (implementations live in `subscription_storage.cpp` /
`agent.cpp`, not among the sources).  Per the spec: "for any `(mailbox_id,
message_type, state_id)` at most one record exists on a given agent; adding a
duplicate fails with *subscription already exists*", surfaced to the caller,
which leaves the storage untouched. -/
def subscription_storage_t.insert
    (s : subscription_storage_t) (k : subscr_key_t)
    (h : event_handler_data_t) : Except rc_t subscription_storage_t :=
  if s.has_subscription k then
    .error .rc_evt_handler_already_provided
  else
    .ok { m_events := s.m_events ++ [(k, h)] }

/-- Modelled from the spec: the `find` operation of the subscription storage:
exact lookup of `(mbox id, message type, state)`, no fallback of any kind
("if no handler is registered for `current_state_id`, return none — do not
fall back to default state"). -/
def subscription_storage_t.find (s : subscription_storage_t)
    (mbox_id : Nat) (msg_type : Nat) (state : Nat) :
    Option event_handler_data_t :=
  (s.m_events.find? (fun p => p.1 == ⟨mbox_id, msg_type, state⟩)).map Prod.snd

/-- At most one record per key (the spec invariant on the storage). -/
def subscription_storage_t.distinct_keys (s : subscription_storage_t) : Prop :=
  (s.m_events.map Prod.fst).Nodup

/-- Kind of demand handler attached to an execution demand. -/
inductive demand_handler_t
  | on_start
  | on_finish
  | on_message
  | service_request
deriving DecidableEq, Repr

/-- `execution_demand_t`: one unit of work for a work thread, targeting the
agent that owns the queue it sits in. -/
structure execution_demand_t where
  m_mbox_id : Nat
  m_msg_type : Nat
  m_message_ref : Nat
  m_demand_handler : demand_handler_t
deriving DecidableEq, Repr

/-- Delivery filter storage: a map `(mbox id, message type) → filter`. -/
structure delivery_filter_storage_t where
  m_filters : List ((Nat × Nat) × Nat)
deriving DecidableEq, Repr

/-- Is a filter installed for this `(mbox id, message type)` pair? -/
def delivery_filter_storage_t.has_filter
    (s : delivery_filter_storage_t) (key : Nat × Nat) : Bool :=
  s.m_filters.any (fun p => p.1 == key)

/-- Modelled from the spec: installing a delivery filter
(`do_set_delivery_filter` lives in `agent.cpp`, not among the sources)
binds the filter to the `(mbox id, message type)` pair, replacing a
previously installed one. -/
def delivery_filter_storage_t.set_delivery_filter
    (s : delivery_filter_storage_t) (key : Nat × Nat) (filter : Nat) :
    delivery_filter_storage_t :=
  if s.has_filter key then
    { m_filters := s.m_filters.map (fun p => if p.1 == key then (key, filter) else p) }
  else
    { m_filters := s.m_filters ++ [(key, filter)] }

/-- `agent_t`: the fields of `agent.hpp` the claims touch.  `id` stands for
the `this` pointer; `m_event_queue` is the nullable event-queue pointer
together with the queue contents it points at. -/
structure agent_t where
  id : Nat
  st_default : state_t
  m_current_state_ptr : state_t
  m_subscriptions : subscription_storage_t
  m_event_queue : Option (List execution_demand_t)
  m_working_thread_id : Nat
  m_delivery_filters : delivery_filter_storage_t
deriving DecidableEq, Repr

/-- Modelled from the spec: the body of `agent_t::push_event` is in
`agent.cpp`, not among the sources.  Its behaviour is documented at
`m_event_queue` in `agent.hpp`: "nullptr in m_event_queue means that methods
push_event() and push_service_request() will throw away any new demand";
otherwise the demand is appended to the event queue. -/
def agent_t.push_event (a : agent_t) (mbox_id : Nat) (msg_type : Nat)
    (message : Nat) : agent_t :=
  match a.m_event_queue with
  | none => a
  | some q =>
    let q2 := q ++ [⟨mbox_id, msg_type, message, .on_message⟩]
    { a with m_event_queue := some q2 }

/-- Modelled from the spec: the body of `agent_t::push_service_request` is in
`agent.cpp`, not among the sources; same discipline as `push_event` but the
demand carries the service-request handler. -/
def agent_t.push_service_request (a : agent_t) (mbox_id : Nat)
    (msg_type : Nat) (message : Nat) : agent_t :=
  match a.m_event_queue with
  | none => a
  | some q =>
    let q2 := q ++ [⟨mbox_id, msg_type, message, .service_request⟩]
    { a with m_event_queue := some q2 }

/-- Modelled from the spec: the body of `agent_t::shutdown_agent` is in
`agent.cpp`, not among the sources.  Per `agent.hpp`: it resets
`m_event_queue` to nullptr (releasing the binding) and "destroys all agent
subscriptions". -/
def agent_t.shutdown_agent (a : agent_t) : agent_t :=
  { a with
      m_event_queue := none,
      m_subscriptions := { m_events := [] } }

/-- Modelled from the spec: the body of `agent_t::so_change_state` is in
`agent.cpp`, not among the sources.  Per the spec: "`change_state(new)`
requires: called on working thread, `new` belongs to this agent; else fails
with *state-owner-mismatch* or *thread-mismatch*." -/
def agent_t.so_change_state (a : agent_t) (caller_thread : Nat)
    (new_state : state_t) : Except rc_t agent_t :=
  if caller_thread ≠ a.m_working_thread_id then
    .error .rc_operation_enabled_only_on_agent_working_thread
  else if ¬ new_state.is_target a.id then
    .error .rc_agent_is_not_the_state_owner
  else
    .ok { a with m_current_state_ptr := new_state }

/-- Modelled from the spec: the body of `agent_t::create_event_subscription`
is in `agent.cpp`, not among the sources.  It checks the working thread and
then inserts the record; a duplicate key is surfaced to the caller as
*subscription already exists* and leaves the agent unchanged. -/
def agent_t.create_event_subscription (a : agent_t) (caller_thread : Nat)
    (mbox_id : Nat) (type_index : Nat) (target_state : state_t)
    (method : event_handler_data_t) : Except rc_t agent_t :=
  if caller_thread ≠ a.m_working_thread_id then
    .error .rc_operation_enabled_only_on_agent_working_thread
  else
    match a.m_subscriptions.insert
        ⟨mbox_id, type_index, target_state.m_state_id⟩ method with
    | .error e => .error e
    | .ok s2 => .ok { a with m_subscriptions := s2 }

/-- `subscription_bind_t`: agent (as identity), mbox and the states collected
by `in` calls. -/
structure subscription_bind_t where
  m_agent : Nat
  m_mbox_ref : Nat
  m_states : List state_t
deriving DecidableEq, Repr

/-- `subscription_bind_t::in` (named `in_state` here; `in` is reserved):
"if( !state.is_target( m_agent ) ) throw rc_agent_is_not_the_state_owner";
otherwise the state is appended to `m_states`. -/
def subscription_bind_t.in_state (b : subscription_bind_t)
    (state : state_t) : Except rc_t subscription_bind_t :=
  if ¬ state.is_target b.m_agent then
    .error .rc_agent_is_not_the_state_owner
  else
    .ok { b with m_states := b.m_states ++ [state] }

/-- `ensure_not_signal< MESSAGE >` (declared in `message.hpp`, not among the
sources): rejects signal types.  Modelled from the spec: delivery filters are
"forbidden on MPSC mailboxes and on signals". -/
def ensure_not_signal (m : msg_type_t) : Except rc_t Unit :=
  if m.m_signal then
    .error .rc_delivery_filter_cannot_be_used_for_signal
  else
    .ok ()

/-- `agent_t::so_set_delivery_filter< MESSAGE >` (`agent.hpp`):
`ensure_not_signal< MESSAGE >()` and then `do_set_delivery_filter(mbox,
payload_type_index, filter)` (the latter modelled from the spec: it installs
the filter for the `(mbox, message type)` pair). -/
def agent_t.so_set_delivery_filter (a : agent_t) (mbox : Nat)
    (msg : msg_type_t) (filter : Nat) : Except rc_t agent_t :=
  match ensure_not_signal msg with
  | .error e => .error e
  | .ok _ =>
    .ok { a with m_delivery_filters :=
            a.m_delivery_filters.set_delivery_filter (mbox, msg.m_index) filter }

/-- Modelled from the spec: `agent_t::handler_finder_msg_tracing_disabled`
(body in `agent.cpp`, not among the sources) looks the handler up by
`(mbox id, message type, current state)` — and only by that key. -/
def agent_t.handler_finder_msg_tracing_disabled (a : agent_t)
    (demand : execution_demand_t) : Option event_handler_data_t :=
  a.m_subscriptions.find demand.m_mbox_id demand.m_msg_type
    a.m_current_state_ptr.m_state_id

/-- Modelled from the spec: `agent_t::demand_handler_on_message` (body in
`agent.cpp`, not among the sources).  "If absent, emit a *no-handler* trace
event and discard; not an error": the agent is untouched and no handler is
invoked; otherwise the found handler is invoked. -/
def agent_t.demand_handler_on_message (a : agent_t)
    (demand : execution_demand_t) : agent_t × Option Nat :=
  match a.handler_finder_msg_tracing_disabled demand with
  | none => (a, none)
  | some h => (a, some h.m_method)

/-! ## C7 — work-thread demand queue (`demand_queue_t`)

The class and its doc comments are in the work-thread header among the
sources; the member bodies live in `work_thread.cpp`, which is not. -/

/-- Status codes returned by `demand_queue_t::pop` (the anonymous enum of the
header): extracted / shutting down / queue empty. -/
inductive pop_status_t
  | demand_extracted
  | shutting_down
  | no_demands
deriving DecidableEq, Repr

/-- `demand_queue_t`: the pending demands (`m_demands`, a `std::deque`) and
the service flag (`m_in_service`: "true -- shall do the service, methods
push/pop must work.  false -- the service is stopped or will be stopped.").
The lock and condition variable only guard concurrent access and carry no
queue semantics. -/
structure demand_queue_t where
  m_demands : List execution_demand_t
  m_in_service : Bool
deriving DecidableEq, Repr

/-- Modelled from the spec: `demand_queue_t::start_service` (body in
`work_thread.cpp`, not among the sources): enables the service flag. -/
def demand_queue_t.start_service (q : demand_queue_t) : demand_queue_t :=
  { q with m_in_service := true }

/-- Modelled from the spec: `demand_queue_t::stop_service` (body in
`work_thread.cpp`, not among the sources): clears the service flag — "stop
accepting new demands"; `shutdown` is idempotent. -/
def demand_queue_t.stop_service (q : demand_queue_t) : demand_queue_t :=
  { q with m_in_service := false }

/-- Modelled from the spec: `demand_queue_t::push` (body in
`work_thread.cpp`, not among the sources): appends the demand while in
service; after `stop_service` new demands are thrown away. -/
def demand_queue_t.push (q : demand_queue_t) (d : execution_demand_t) :
    demand_queue_t :=
  if q.m_in_service then { q with m_demands := q.m_demands ++ [d] } else q

/-- Modelled from the spec: `demand_queue_t::pop` (body in
`work_thread.cpp`, not among the sources): under shutdown it returns
`shutting_down` and extracts nothing; otherwise it extracts the whole batch
of pending demands (blocking on an empty queue is modelled by the
`no_demands` status). -/
def demand_queue_t.pop (q : demand_queue_t) :
    pop_status_t × List execution_demand_t × demand_queue_t :=
  if q.m_in_service then
    match q.m_demands with
    | [] => (.no_demands, [], q)
    | ds => (.demand_extracted, ds, { q with m_demands := [] })
  else
    (.shutting_down, [], q)

/-- `demand_queue_t::clear`. -/
def demand_queue_t.clear (q : demand_queue_t) : demand_queue_t :=
  { q with m_demands := [] }

/-! ## C2 — agent lifecycle bracketing

Modelled from the spec: the bodies of `demand_handler_on_start` /
`demand_handler_on_finish` and the registration/deregistration protocol live
in `agent.cpp` and the registry sources, not among the sources here.  The
model follows §4.3/§4.7/§5 of the spec: binding pushes the `on_start` demand
first; deliveries enqueue user events only while the event-queue binding is
live; deregistration pushes `on_finish` once; serving `on_finish` drains the
remaining demands without invoking handlers and releases the binding. -/

/-- Kind of demand in an agent's lifecycle trace. -/
inductive lifecycle_demand_t
  | evt_start
  | user_evt (msg : Nat)
  | evt_finish
deriving DecidableEq, Repr

/-- Lifecycle phases of an agent (spec §3: constructed → defined → bound →
running → … → destroyed). -/
inductive agent_phase_t
  | constructed
  | defined
  | bound
  | running
  | destroyed
deriving DecidableEq, Repr

/-- Runtime view of one agent: its phase, whether deregistration has been
initiated for its coop, its local FIFO of demands, and the trace of demands
it has executed. -/
structure agent_rt_t where
  phase : agent_phase_t
  dereg_started : Bool
  queue : List lifecycle_demand_t
  executed : List lifecycle_demand_t
deriving DecidableEq, Repr

/-- The operations the environment can direct at one agent. -/
inductive lifecycle_op_t
  | so_define
  | bind_to_dispatcher
  | deliver (msg : Nat)
  | start_deregistration
  | serve
deriving DecidableEq, Repr

/-- Is the agent's event-queue binding live (deliveries reach the queue)? -/
def agent_rt_t.binding_live (s : agent_rt_t) : Bool :=
  s.phase == .bound || s.phase == .running

/-- Modelled from the spec: one lifecycle transition.
* `so_define` — `so_define_agent` runs on the registering thread.
* `bind_to_dispatcher` — registration binds the agent and pushes the
  `on_start` demand as the first demand of the queue.
* `deliver` — a mailbox pushes a user-event demand; thrown away unless the
  binding is live.
* `start_deregistration` — the coop pushes the `on_finish` demand, once.
* `serve` — the work thread pops the front demand and executes it;
  `on_start` moves the agent to `running`; `on_finish` drains the queue
  without invoking handlers and releases the binding. -/
def lifecycle_step (s : agent_rt_t) : lifecycle_op_t → agent_rt_t
  | .so_define =>
    if s.phase = .constructed then { s with phase := .defined } else s
  | .bind_to_dispatcher =>
    if s.phase = .defined then
      { s with phase := .bound, queue := s.queue ++ [.evt_start] }
    else s
  | .deliver m =>
    if s.binding_live then { s with queue := s.queue ++ [.user_evt m] } else s
  | .start_deregistration =>
    if s.binding_live && !s.dereg_started then
      { s with dereg_started := true, queue := s.queue ++ [.evt_finish] }
    else s
  | .serve =>
    match s.queue with
    | [] => s
    | d :: rest =>
      match d with
      | .evt_start =>
        { s with phase := .running, queue := rest,
                 executed := s.executed ++ [.evt_start] }
      | .user_evt m =>
        { s with queue := rest, executed := s.executed ++ [.user_evt m] }
      | .evt_finish =>
        { s with phase := .destroyed, queue := [],
                 executed := s.executed ++ [.evt_finish] }

/-- The agent before its cooperation is registered. -/
def lifecycle_init : agent_rt_t :=
  { phase := .constructed, dereg_started := false, queue := [], executed := [] }

/-- Run a sequence of lifecycle operations from the initial state. -/
def lifecycle_run (ops : List lifecycle_op_t) : agent_rt_t :=
  ops.foldl lifecycle_step lifecycle_init

/-- All demands in the list are user events. -/
def user_only (l : List lifecycle_demand_t) : Prop :=
  ∀ d ∈ l, ∃ m, d = lifecycle_demand_t.user_evt m

/-- The reachable shapes of an agent's runtime state (the induction
invariant behind C2). -/
def lifecycle_inv (s : agent_rt_t) : Prop :=
  ((s.phase = .constructed ∨ s.phase = .defined)
      ∧ s.queue = [] ∧ s.executed = [] ∧ s.dereg_started = false)
  ∨ (s.phase = .bound ∧ s.dereg_started = false ∧ s.executed = []
      ∧ ∃ us, user_only us ∧ s.queue = .evt_start :: us)
  ∨ (s.phase = .bound ∧ s.dereg_started = true ∧ s.executed = []
      ∧ ∃ us vs, user_only us ∧ user_only vs
          ∧ s.queue = .evt_start :: us ++ .evt_finish :: vs)
  ∨ (s.phase = .running ∧ s.dereg_started = false
      ∧ (∃ es, user_only es ∧ s.executed = .evt_start :: es)
      ∧ user_only s.queue)
  ∨ (s.phase = .running ∧ s.dereg_started = true
      ∧ (∃ es, user_only es ∧ s.executed = .evt_start :: es)
      ∧ ∃ us vs, user_only us ∧ user_only vs
          ∧ s.queue = us ++ .evt_finish :: vs)
  ∨ (s.phase = .destroyed ∧ s.dereg_started = true ∧ s.queue = []
      ∧ ∃ es, user_only es ∧ s.executed = .evt_start :: es ++ [.evt_finish])

/-! ## C8 — cooperation registry notifications

Modelled from the spec: the registry implementation
(`agent_core.cpp`/`agent_coop.cpp`) is not among the sources; the model
follows §4.7 — registration fires the registration notificators after the
coop is added, an exception in `so_evt_start` under the deregister-coop
reaction triggers deregistration with reason unhandled-exception, and the
deregistration notificators fire when the coop leaves the registry. -/

/-- Deregistration reasons (spec §4.7). -/
inductive dereg_reason_t
  | normal
  | shutdown_reason
  | user_defined
  | unhandled_exception
deriving DecidableEq, Repr

/-- A cooperation notification observed on a notificator's target mbox. -/
inductive coop_notice_t
  | coop_reg (name : Nat)
  | coop_dereg (name : Nat) (reason : dereg_reason_t)
deriving DecidableEq, Repr

/-- A cooperation as submitted for registration: its name, whether its agent
throws in `so_evt_start` (under the deregister-coop exception reaction), and
whether registration/deregistration notificators are configured. -/
structure coop_t where
  name : Nat
  throws_on_start : Bool
  has_notificators : Bool
deriving DecidableEq, Repr

/-- Registry state: registered coops, coops whose `on_start` demand is still
pending, and the observed notification sequence. -/
structure registry_t where
  registered : List coop_t
  pending_start : List Nat
  observed : List coop_notice_t
deriving DecidableEq, Repr

/-- Operations on the registry. -/
inductive registry_op_t
  | register (c : coop_t)
  | serve_start (name : Nat)
  | deregister (name : Nat) (reason : dereg_reason_t)
deriving DecidableEq, Repr

/-- Modelled from the spec: deregistration of a registered coop — remove it
from the registry and fire its deregistration notificators with the given
reason (spec §4.7, deregistration step 4).  Unknown names are ignored. -/
def registry_dereg (r : registry_t) (name : Nat) (reason : dereg_reason_t) :
    registry_t :=
  match r.registered.find? (fun c => c.name == name) with
  | none => r
  | some c =>
    { registered := r.registered.filter (fun c2 => !(c2.name == name)),
      pending_start := r.pending_start.erase name,
      observed := r.observed
        ++ (if c.has_notificators then [.coop_dereg name reason] else []) }

/-- Modelled from the spec: one registry transition.
* `register c` — validate the name, add the coop, push its `on_start`
  demand, fire the registration notificators (spec §4.7, steps 1–5).
* `serve_start name` — execute the pending `on_start`; if the agent throws,
  the deregister-coop reaction deregisters the coop with reason
  unhandled-exception.
* `deregister name reason` — explicit deregistration. -/
def registry_step (r : registry_t) : registry_op_t → registry_t
  | .register c =>
    if (r.registered.map coop_t.name).contains c.name then r
    else
      { registered := r.registered ++ [c],
        pending_start := r.pending_start ++ [c.name],
        observed := r.observed
          ++ (if c.has_notificators then [.coop_reg c.name] else []) }
  | .serve_start name =>
    if r.pending_start.contains name then
      let r2 := { r with pending_start := r.pending_start.erase name }
      match r.registered.find? (fun c => c.name == name) with
      | none => r2
      | some c =>
        if c.throws_on_start then
          registry_dereg r2 name .unhandled_exception
        else r2
    else r
  | .deregister name reason => registry_dereg r name reason

/-- The empty registry. -/
def registry_init : registry_t :=
  { registered := [], pending_start := [], observed := [] }

/-- Run a sequence of registry operations from the empty registry. -/
def registry_run (ops : List registry_op_t) : registry_t :=
  ops.foldl registry_step registry_init

/-- Names carried by the registration notifications of the list. -/
def reg_names (l : List coop_notice_t) : List Nat :=
  l.filterMap (fun n =>
    match n with
    | .coop_reg m => some m
    | .coop_dereg _ _ => none)

/-- Scan the notification sequence, accumulating the coops whose
registration notification has been seen; every deregistration notification
must name a coop registered earlier. -/
def dereg_after_reg : List coop_notice_t → List Nat → Bool
  | [], _ => true
  | .coop_reg n :: rest, seen => dereg_after_reg rest (n :: seen)
  | .coop_dereg n _ :: rest, seen =>
    seen.contains n && dereg_after_reg rest seen

/-- No deregistration notification precedes the matching registration
notification. -/
def no_dereg_before_reg (l : List coop_notice_t) : Bool :=
  dereg_after_reg l []

/-! ## Supporting lemmas -/

theorem local_event_queue_t.push_all_events
    (evts : List event_item_t) (q : local_event_queue_t) :
    (q.push_all evts).m_events_queue = q.m_events_queue ++ evts := by
  induction evts generalizing q with
  | nil => simp [local_event_queue_t.push_all]
  | cons e rest ih =>
    simp only [local_event_queue_t.push_all, List.foldl_cons] at *
    rw [ih]
    simp [local_event_queue_t.push]

theorem local_event_queue_t.drain_fuel_enough
    (fuel : Nat) (q : local_event_queue_t)
    (h : q.m_events_queue.length ≤ fuel) :
    local_event_queue_t.drain_fuel fuel q = q.m_events_queue := by
  induction fuel generalizing q with
  | zero =>
    have : q.m_events_queue = [] := List.eq_nil_of_length_eq_zero
      (Nat.le_zero.mp h)
    simp [local_event_queue_t.drain_fuel, this]
  | succ n ih =>
    cases hq : q.m_events_queue with
    | nil =>
      simp [local_event_queue_t.drain_fuel, local_event_queue_t.pop, hq]
    | cons e rest =>
      have hlen : rest.length ≤ n := by
        have := h
        rw [hq] at this
        simpa [List.length_cons, Nat.succ_le_succ_iff] using this
      simp only [local_event_queue_t.drain_fuel, local_event_queue_t.pop, hq]
      rw [ih { m_events_queue := rest } hlen]

theorem local_event_queue_t.drain_eq
    (q : local_event_queue_t) : q.drain = q.m_events_queue :=
  local_event_queue_t.drain_fuel_enough q.size q (Nat.le_refl _)

theorem subscription_storage_t.has_subscription_false
    (s : subscription_storage_t) (k : subscr_key_t)
    (h : s.has_subscription k = false) :
    k ∉ s.m_events.map Prod.fst := by
  intro hmem
  rcases List.mem_map.mp hmem with ⟨p, hp, hpk⟩
  have : s.has_subscription k = true := by
    simp only [subscription_storage_t.has_subscription, List.any_eq_true]
    exact ⟨p, hp, by simp [hpk]⟩
  rw [h] at this
  exact Bool.false_ne_true this

theorem user_only_nil : user_only [] := by
  intro d hd
  cases hd

theorem user_only_append {l1 l2 : List lifecycle_demand_t}
    (h1 : user_only l1) (h2 : user_only l2) : user_only (l1 ++ l2) := by
  intro d hd
  rcases List.mem_append.mp hd with h | h
  · exact h1 d h
  · exact h2 d h

theorem user_only_single (m : Nat) : user_only [.user_evt m] := by
  intro d hd
  exact ⟨m, List.mem_singleton.mp hd⟩

theorem user_only_of_cons {d : lifecycle_demand_t}
    {l : List lifecycle_demand_t} (h : user_only (d :: l)) : user_only l :=
  fun x hx => h x (List.mem_cons_of_mem _ hx)

theorem user_only_no_start {l : List lifecycle_demand_t}
    (h : user_only l) : lifecycle_demand_t.evt_start ∉ l := by
  intro hmem
  rcases h _ hmem with ⟨m, hm⟩
  cases hm

theorem user_only_no_finish {l : List lifecycle_demand_t}
    (h : user_only l) : lifecycle_demand_t.evt_finish ∉ l := by
  intro hmem
  rcases h _ hmem with ⟨m, hm⟩
  cases hm

theorem delivery_filter_storage_t.set_delivery_filter_has
    (s : delivery_filter_storage_t) (key : Nat × Nat) (f : Nat) :
    (s.set_delivery_filter key f).has_filter key = true := by
  unfold delivery_filter_storage_t.set_delivery_filter
  by_cases h : s.has_filter key = true
  · rw [if_pos h]
    rcases (by
      simpa only [delivery_filter_storage_t.has_filter, List.any_eq_true]
        using h : ∃ p ∈ s.m_filters, (p.1 == key) = true) with ⟨p, hp, hpk⟩
    simp only [delivery_filter_storage_t.has_filter, List.any_eq_true]
    refine ⟨(key, f), List.mem_map.mpr ⟨p, hp, by simp [hpk]⟩, by simp⟩
  · rw [if_neg h]
    simp only [delivery_filter_storage_t.has_filter, List.any_eq_true]
    exact ⟨(key, f), by simp⟩

theorem lifecycle_inv_init : lifecycle_inv lifecycle_init := by
  left
  exact ⟨Or.inl rfl, rfl, rfl, rfl⟩

theorem lifecycle_inv_step_constructed (op : lifecycle_op_t) :
    lifecycle_inv (lifecycle_step ⟨.constructed, false, [], []⟩ op) := by
  cases op
  case so_define => exact Or.inl ⟨Or.inr rfl, rfl, rfl, rfl⟩
  case bind_to_dispatcher => exact Or.inl ⟨Or.inl rfl, rfl, rfl, rfl⟩
  case deliver => exact Or.inl ⟨Or.inl rfl, rfl, rfl, rfl⟩
  case start_deregistration => exact Or.inl ⟨Or.inl rfl, rfl, rfl, rfl⟩
  case serve => exact Or.inl ⟨Or.inl rfl, rfl, rfl, rfl⟩

theorem lifecycle_inv_step_defined (op : lifecycle_op_t) :
    lifecycle_inv (lifecycle_step ⟨.defined, false, [], []⟩ op) := by
  cases op
  case so_define => exact Or.inl ⟨Or.inr rfl, rfl, rfl, rfl⟩
  case bind_to_dispatcher =>
    exact Or.inr (Or.inl ⟨rfl, rfl, rfl, [], user_only_nil, rfl⟩)
  case deliver => exact Or.inl ⟨Or.inr rfl, rfl, rfl, rfl⟩
  case start_deregistration => exact Or.inl ⟨Or.inr rfl, rfl, rfl, rfl⟩
  case serve => exact Or.inl ⟨Or.inr rfl, rfl, rfl, rfl⟩

theorem lifecycle_inv_step_bound (us : List lifecycle_demand_t)
    (hus : user_only us) (op : lifecycle_op_t) :
    lifecycle_inv (lifecycle_step
      ⟨.bound, false, .evt_start :: us, []⟩ op) := by
  cases op
  case so_define =>
    exact Or.inr (Or.inl ⟨rfl, rfl, rfl, us, hus, rfl⟩)
  case bind_to_dispatcher =>
    exact Or.inr (Or.inl ⟨rfl, rfl, rfl, us, hus, rfl⟩)
  case deliver m =>
    exact Or.inr (Or.inl ⟨rfl, rfl, rfl, us ++ [lifecycle_demand_t.user_evt m],
      user_only_append hus (user_only_single m), rfl⟩)
  case start_deregistration =>
    exact Or.inr (Or.inr (Or.inl ⟨rfl, rfl, rfl, us, [], hus,
      user_only_nil, by simp [lifecycle_step, agent_rt_t.binding_live]⟩))
  case serve =>
    exact Or.inr (Or.inr (Or.inr (Or.inl ⟨rfl, rfl,
      ⟨[], user_only_nil, rfl⟩, hus⟩)))

theorem lifecycle_inv_step_bound_dereg (us vs : List lifecycle_demand_t)
    (hus : user_only us) (hvs : user_only vs) (op : lifecycle_op_t) :
    lifecycle_inv (lifecycle_step
      ⟨.bound, true, .evt_start :: us ++ .evt_finish :: vs, []⟩ op) := by
  cases op
  case so_define =>
    exact Or.inr (Or.inr (Or.inl ⟨rfl, rfl, rfl, us, vs, hus, hvs, rfl⟩))
  case bind_to_dispatcher =>
    exact Or.inr (Or.inr (Or.inl ⟨rfl, rfl, rfl, us, vs, hus, hvs, rfl⟩))
  case deliver m =>
    exact Or.inr (Or.inr (Or.inl ⟨rfl, rfl, rfl, us, vs ++ [lifecycle_demand_t.user_evt m],
      hus, user_only_append hvs (user_only_single m), by simp [lifecycle_step, agent_rt_t.binding_live]⟩))
  case start_deregistration =>
    exact Or.inr (Or.inr (Or.inl ⟨rfl, rfl, rfl, us, vs, hus, hvs, rfl⟩))
  case serve =>
    exact Or.inr (Or.inr (Or.inr (Or.inr (Or.inl ⟨rfl, rfl,
      ⟨[], user_only_nil, rfl⟩, us, vs, hus, hvs, rfl⟩))))

theorem lifecycle_inv_step_running (qu es : List lifecycle_demand_t)
    (huq : user_only qu) (hes : user_only es) (op : lifecycle_op_t) :
    lifecycle_inv (lifecycle_step
      ⟨.running, false, qu, .evt_start :: es⟩ op) := by
  cases op
  case so_define =>
    exact Or.inr (Or.inr (Or.inr (Or.inl ⟨rfl, rfl,
      ⟨es, hes, rfl⟩, huq⟩)))
  case bind_to_dispatcher =>
    exact Or.inr (Or.inr (Or.inr (Or.inl ⟨rfl, rfl,
      ⟨es, hes, rfl⟩, huq⟩)))
  case deliver m =>
    exact Or.inr (Or.inr (Or.inr (Or.inl ⟨rfl, rfl, ⟨es, hes, rfl⟩,
      user_only_append huq (user_only_single m)⟩)))
  case start_deregistration =>
    exact Or.inr (Or.inr (Or.inr (Or.inr (Or.inl ⟨rfl, rfl,
      ⟨es, hes, rfl⟩, qu, [], huq, user_only_nil, rfl⟩))))
  case serve =>
    cases qu with
    | nil =>
      exact Or.inr (Or.inr (Or.inr (Or.inl ⟨rfl, rfl,
        ⟨es, hes, rfl⟩, user_only_nil⟩)))
    | cons d rest =>
      rcases huq d (List.mem_cons_self d rest) with ⟨m, hm⟩
      subst hm
      exact Or.inr (Or.inr (Or.inr (Or.inl ⟨rfl, rfl,
        ⟨es ++ [lifecycle_demand_t.user_evt m],
          user_only_append hes (user_only_single m), rfl⟩,
        user_only_of_cons huq⟩)))

theorem lifecycle_inv_step_running_dereg (us vs es : List lifecycle_demand_t)
    (hus : user_only us) (hvs : user_only vs) (hes : user_only es)
    (op : lifecycle_op_t) :
    lifecycle_inv (lifecycle_step
      ⟨.running, true, us ++ .evt_finish :: vs, .evt_start :: es⟩ op) := by
  cases op
  case so_define =>
    exact Or.inr (Or.inr (Or.inr (Or.inr (Or.inl ⟨rfl, rfl,
      ⟨es, hes, rfl⟩, us, vs, hus, hvs, rfl⟩))))
  case bind_to_dispatcher =>
    exact Or.inr (Or.inr (Or.inr (Or.inr (Or.inl ⟨rfl, rfl,
      ⟨es, hes, rfl⟩, us, vs, hus, hvs, rfl⟩))))
  case deliver m =>
    exact Or.inr (Or.inr (Or.inr (Or.inr (Or.inl ⟨rfl, rfl,
      ⟨es, hes, rfl⟩, us, vs ++ [lifecycle_demand_t.user_evt m], hus,
      user_only_append hvs (user_only_single m), by simp [lifecycle_step, agent_rt_t.binding_live]⟩))))
  case start_deregistration =>
    exact Or.inr (Or.inr (Or.inr (Or.inr (Or.inl ⟨rfl, rfl,
      ⟨es, hes, rfl⟩, us, vs, hus, hvs, rfl⟩))))
  case serve =>
    cases us with
    | nil =>
      exact Or.inr (Or.inr (Or.inr (Or.inr (Or.inr ⟨rfl, rfl, rfl,
        es, hes, rfl⟩))))
    | cons u us2 =>
      rcases hus u (List.mem_cons_self u us2) with ⟨m, hm⟩
      subst hm
      exact Or.inr (Or.inr (Or.inr (Or.inr (Or.inl ⟨rfl, rfl,
        ⟨es ++ [lifecycle_demand_t.user_evt m],
          user_only_append hes (user_only_single m), rfl⟩,
        us2, vs, user_only_of_cons hus, hvs, rfl⟩))))

theorem lifecycle_inv_step_destroyed (es : List lifecycle_demand_t)
    (hes : user_only es) (op : lifecycle_op_t) :
    lifecycle_inv (lifecycle_step
      ⟨.destroyed, true, [], .evt_start :: es ++ [.evt_finish]⟩ op) := by
  cases op <;>
    exact Or.inr (Or.inr (Or.inr (Or.inr (Or.inr ⟨rfl, rfl, rfl,
      es, hes, rfl⟩))))

theorem lifecycle_inv_step (s : agent_rt_t) (op : lifecycle_op_t)
    (hs : lifecycle_inv s) : lifecycle_inv (lifecycle_step s op) := by
  obtain ⟨ph, dg, qu, ex⟩ := s
  rcases hs with ⟨hph, hq, he, hd⟩ | ⟨hph, hd, he, us, hus, hq⟩
    | ⟨hph, hd, he, us, vs, hus, hvs, hq⟩ | ⟨hph, hd, hes, huq⟩
    | ⟨hph, hd, hes, us, vs, hus, hvs, hq⟩ | ⟨hph, hd, hq, es, hes, hex⟩
  · simp only at hph hq he hd
    subst hq; subst he; subst hd
    rcases hph with hph | hph <;> subst hph
    · exact lifecycle_inv_step_constructed op
    · exact lifecycle_inv_step_defined op
  · simp only at hph hd he hq
    subst hph; subst hd; subst he; subst hq
    exact lifecycle_inv_step_bound us hus op
  · simp only at hph hd he hq
    subst hph; subst hd; subst he; subst hq
    exact lifecycle_inv_step_bound_dereg us vs hus hvs op
  · simp only at hph hd
    subst hph; subst hd
    obtain ⟨es, hes_user, hex⟩ := hes
    simp only at hex
    subst hex
    exact lifecycle_inv_step_running qu es huq hes_user op
  · simp only at hph hd hq
    subst hph; subst hd; subst hq
    obtain ⟨es, hes_user, hex⟩ := hes
    simp only at hex
    subst hex
    exact lifecycle_inv_step_running_dereg us vs es hus hvs hes_user op
  · simp only at hph hd hq hex
    subst hph; subst hd; subst hq; subst hex
    exact lifecycle_inv_step_destroyed es hes op

theorem lifecycle_inv_foldl (ops : List lifecycle_op_t) (s : agent_rt_t)
    (hs : lifecycle_inv s) : lifecycle_inv (ops.foldl lifecycle_step s) := by
  induction ops generalizing s with
  | nil => exact hs
  | cons op rest ih => exact ih _ (lifecycle_inv_step s op hs)

theorem lifecycle_inv_run (ops : List lifecycle_op_t) :
    lifecycle_inv (lifecycle_run ops) :=
  lifecycle_inv_foldl ops lifecycle_init lifecycle_inv_init

theorem lifecycle_executed_shape (s : agent_rt_t) (hs : lifecycle_inv s) :
    ∃ es, user_only es ∧
      (s.executed = [] ∨ s.executed = .evt_start :: es
        ∨ s.executed = .evt_start :: es ++ [.evt_finish]) := by
  rcases hs with ⟨_, _, he, _⟩ | ⟨_, _, he, _⟩ | ⟨_, _, he, _⟩
    | ⟨_, _, ⟨es, hes, he⟩, _⟩ | ⟨_, _, ⟨es, hes, he⟩, _⟩
    | ⟨_, _, _, es, hes, he⟩
  · exact ⟨[], user_only_nil, Or.inl he⟩
  · exact ⟨[], user_only_nil, Or.inl he⟩
  · exact ⟨[], user_only_nil, Or.inl he⟩
  · exact ⟨es, hes, Or.inr (Or.inl he)⟩
  · exact ⟨es, hes, Or.inr (Or.inl he)⟩
  · exact ⟨es, hes, Or.inr (Or.inr he)⟩

/-! ## Claim theorems -/

/-- C1 (per-agent FIFO): pushing any sequence of items onto an agent's local
event queue and then popping repeatedly returns the items first-in
first-out — the pops yield exactly the items already queued followed by the
newly pushed ones, in push order. -/
theorem C1_local_event_queue_fifo
    (q : local_event_queue_t) (evts : List event_item_t) :
    (q.push_all evts).drain = q.m_events_queue ++ evts := by
  rw [local_event_queue_t.drain_eq, local_event_queue_t.push_all_events]

/-- C10 (lock-holder equivalence): for every action `l`,
`actual_lock_holder_t::lock_and_perform(l)` and
`no_lock_holder_t::lock_and_perform(l)` both return `l()`'s value, for every
lock type and initial mutex state; and `lock_holder_detector` selects
`no_lock_holder_t` exactly for `null_mutex_t`. -/
theorem C10_lock_holder_equivalence {σ α : Type}
    (L : lock_ops_t σ) (m : σ) (l : Unit → α) :
    (actual_lock_holder_t.lock_and_perform L m l).1
        = no_lock_holder_t.lock_and_perform l
    ∧ no_lock_holder_t.lock_and_perform l = l ()
    ∧ (∀ t : lock_type_t,
        lock_holder_detector t = .no_lock_holder ↔ t = .null_mutex) := by
  refine ⟨rfl, rfl, ?_⟩
  intro t
  cases t <;> simp [lock_holder_detector]

/-- C3 (duplicate-subscription rejection): once a subscription for a key
`(mbox id, message type, state)` has been created on an agent, a second
`create_event_subscription` with the same key fails with the
subscription-already-exists error surfaced to the caller (the failed call
yields no modified agent, so the table is unchanged); and a successful insert
preserves the at-most-one-record-per-key invariant. -/
theorem C3_duplicate_subscription_rejected
    (a : agent_t) (mbox ti : Nat) (st : state_t)
    (h1 h2 : event_handler_data_t) (a2 : agent_t)
    (hok : a.create_event_subscription a.m_working_thread_id mbox ti st h1
        = .ok a2) :
    a2.create_event_subscription a2.m_working_thread_id mbox ti st h2
        = .error .rc_evt_handler_already_provided
    ∧ (a.m_subscriptions.distinct_keys → a2.m_subscriptions.distinct_keys) := by
  unfold agent_t.create_event_subscription at hok
  rw [if_neg (by simp)] at hok
  set k : subscr_key_t := ⟨mbox, ti, st.m_state_id⟩ with hk
  cases hins : a.m_subscriptions.insert k h1 with
  | error e => rw [hins] at hok; cases hok
  | ok s2 =>
    rw [hins] at hok
    have ha2 : a2 = { a with m_subscriptions := s2 } := by
      cases hok; rfl
    unfold subscription_storage_t.insert at hins
    by_cases hdup : a.m_subscriptions.has_subscription k = true
    · rw [if_pos hdup] at hins; cases hins
    · rw [if_neg hdup] at hins
      have hs2 : s2 = { m_events := a.m_subscriptions.m_events ++ [(k, h1)] } := by
        cases hins; rfl
      constructor
      · unfold agent_t.create_event_subscription
        rw [if_neg (by simp)]
        have hhas : s2.has_subscription k = true := by
          rw [hs2]
          simp only [subscription_storage_t.has_subscription, List.any_eq_true]
          exact ⟨(k, h1), by simp⟩
        unfold subscription_storage_t.insert
        rw [ha2]
        simp only
        rw [hk] at hhas
        rw [if_pos hhas]
      · intro hnd
        rw [ha2]
        simp only [subscription_storage_t.distinct_keys, hs2, List.map_append,
          List.map_cons, List.map_nil]
        refine List.Nodup.append hnd (List.nodup_singleton _) ?_
        intro x hx hx1
        have hkx : x = k := List.mem_singleton.mp hx1
        subst hkx
        exact subscription_storage_t.has_subscription_false _ _
          (Bool.eq_false_iff.mpr hdup) hx

/-- Witness for C3: on a concrete agent, after subscribing
`(mbox 1, type 2, state 3)` a second subscription with the same key is
rejected with the subscription-already-exists error. -/
theorem C3_duplicate_subscription_rejected_witness :
    ({ id := 0, st_default := ⟨0, 0⟩, m_current_state_ptr := ⟨0, 0⟩,
       m_subscriptions := ⟨[(⟨1, 2, 3⟩, ⟨5, .not_thread_safe⟩)]⟩,
       m_event_queue := none, m_working_thread_id := 7,
       m_delivery_filters := ⟨[]⟩ } : agent_t).create_event_subscription 7 1 2
        ⟨0, 3⟩ ⟨6, .not_thread_safe⟩
      = .error .rc_evt_handler_already_provided :=
  (C3_duplicate_subscription_rejected
    { id := 0, st_default := ⟨0, 0⟩, m_current_state_ptr := ⟨0, 0⟩,
      m_subscriptions := ⟨[]⟩, m_event_queue := none,
      m_working_thread_id := 7, m_delivery_filters := ⟨[]⟩ }
    1 2 ⟨0, 3⟩ ⟨5, .not_thread_safe⟩ ⟨6, .not_thread_safe⟩
    { id := 0, st_default := ⟨0, 0⟩, m_current_state_ptr := ⟨0, 0⟩,
      m_subscriptions := ⟨[(⟨1, 2, 3⟩, ⟨5, .not_thread_safe⟩)]⟩,
      m_event_queue := none, m_working_thread_id := 7,
      m_delivery_filters := ⟨[]⟩ } rfl).1

/-- C4 (no default-state fallback, silent no-handler discard): handler lookup
for a dequeued demand uses exactly the key `(mbox id, message type, current
state)`; when the subscription storage holds nothing for that key — whatever
it holds for other states, the default state included — the finder returns
none and the demand is discarded without error, leaving the agent untouched
and invoking no handler. -/
theorem C4_no_default_fallback_silent_discard
    (a : agent_t) (d : execution_demand_t)
    (hnone : a.m_subscriptions.find d.m_mbox_id d.m_msg_type
        a.m_current_state_ptr.m_state_id = none) :
    a.handler_finder_msg_tracing_disabled d = none
    ∧ a.demand_handler_on_message d = (a, none) := by
  have h1 : a.handler_finder_msg_tracing_disabled d = none := hnone
  refine ⟨h1, ?_⟩
  unfold agent_t.demand_handler_on_message
  rw [h1]

/-- Witness for C4: an agent whose only subscription is for its default state
(state 0) but whose current state is state 1 finds no handler for a demand on
the subscribed mbox and message type, and discards it silently. -/
theorem C4_no_default_fallback_silent_discard_witness :
    ({ id := 0, st_default := ⟨0, 0⟩, m_current_state_ptr := ⟨0, 1⟩,
       m_subscriptions := ⟨[(⟨1, 2, 0⟩, ⟨5, .not_thread_safe⟩)]⟩,
       m_event_queue := none, m_working_thread_id := 0,
       m_delivery_filters := ⟨[]⟩ } : agent_t).handler_finder_msg_tracing_disabled
        ⟨1, 2, 9, .on_message⟩ = none
    ∧ ({ id := 0, st_default := ⟨0, 0⟩, m_current_state_ptr := ⟨0, 1⟩,
         m_subscriptions := ⟨[(⟨1, 2, 0⟩, ⟨5, .not_thread_safe⟩)]⟩,
         m_event_queue := none, m_working_thread_id := 0,
         m_delivery_filters := ⟨[]⟩ } : agent_t).demand_handler_on_message
          ⟨1, 2, 9, .on_message⟩
        = ({ id := 0, st_default := ⟨0, 0⟩, m_current_state_ptr := ⟨0, 1⟩,
             m_subscriptions := ⟨[(⟨1, 2, 0⟩, ⟨5, .not_thread_safe⟩)]⟩,
             m_event_queue := none, m_working_thread_id := 0,
             m_delivery_filters := ⟨[]⟩ }, none) :=
  C4_no_default_fallback_silent_discard
    { id := 0, st_default := ⟨0, 0⟩, m_current_state_ptr := ⟨0, 1⟩,
      m_subscriptions := ⟨[(⟨1, 2, 0⟩, ⟨5, .not_thread_safe⟩)]⟩,
      m_event_queue := none, m_working_thread_id := 0,
      m_delivery_filters := ⟨[]⟩ } ⟨1, 2, 9, .on_message⟩ rfl

/-- C5 (state-ownership check): `subscription_bind_t::in` and
`so_change_state` (the latter called on the working thread) succeed exactly
when the state belongs to the agent; a foreign state yields
`rc_agent_is_not_the_state_owner` with nothing modified, an owned state is
appended to the binding / becomes the current state with no other field
changed. -/
theorem C5_state_ownership_check
    (b : subscription_bind_t) (s : state_t) (a : agent_t) (ns : state_t) :
    (s.is_target b.m_agent = false →
        b.in_state s = .error .rc_agent_is_not_the_state_owner)
    ∧ (s.is_target b.m_agent = true →
        b.in_state s = .ok { b with m_states := b.m_states ++ [s] })
    ∧ (ns.is_target a.id = false →
        a.so_change_state a.m_working_thread_id ns
          = .error .rc_agent_is_not_the_state_owner)
    ∧ (ns.is_target a.id = true →
        a.so_change_state a.m_working_thread_id ns
          = .ok { a with m_current_state_ptr := ns }) := by
  refine ⟨?_, ?_, ?_, ?_⟩
  · intro h
    unfold subscription_bind_t.in_state
    rw [if_pos (by simp [h])]
  · intro h
    unfold subscription_bind_t.in_state
    rw [if_neg (by simp [h])]
  · intro h
    unfold agent_t.so_change_state
    rw [if_neg (by simp), if_pos (by simp [h])]
  · intro h
    unfold agent_t.so_change_state
    rw [if_neg (by simp), if_neg (by simp [h])]

/-- Witness for C5: a state owned by agent 1 is rejected both by
`subscription_bind_t::in` on agent 0's binding and by `so_change_state` on
agent 0, with `rc_agent_is_not_the_state_owner`. -/
theorem C5_state_ownership_check_witness :
    (⟨0, 4, []⟩ : subscription_bind_t).in_state ⟨1, 9⟩
      = .error .rc_agent_is_not_the_state_owner
    ∧ ({ id := 0, st_default := ⟨0, 0⟩, m_current_state_ptr := ⟨0, 0⟩,
         m_subscriptions := ⟨[]⟩, m_event_queue := none,
         m_working_thread_id := 3,
         m_delivery_filters := ⟨[]⟩ } : agent_t).so_change_state 3 ⟨1, 9⟩
      = .error .rc_agent_is_not_the_state_owner :=
  ⟨(C5_state_ownership_check ⟨0, 4, []⟩ ⟨1, 9⟩
      { id := 0, st_default := ⟨0, 0⟩, m_current_state_ptr := ⟨0, 0⟩,
        m_subscriptions := ⟨[]⟩, m_event_queue := none,
        m_working_thread_id := 3, m_delivery_filters := ⟨[]⟩ } ⟨1, 9⟩).1 rfl,
   (C5_state_ownership_check ⟨0, 4, []⟩ ⟨1, 9⟩
      { id := 0, st_default := ⟨0, 0⟩, m_current_state_ptr := ⟨0, 0⟩,
        m_subscriptions := ⟨[]⟩, m_event_queue := none,
        m_working_thread_id := 3, m_delivery_filters := ⟨[]⟩ } ⟨1, 9⟩).2.2.1 rfl⟩

/-- C6 (delivery filters forbidden on signals): `so_set_delivery_filter`
fails on a signal message type — the not-a-signal check rejects it and no
filter is installed — and on a non-signal type it installs the filter for the
`(mbox, message type)` pair, touching nothing else on the agent. -/
theorem C6_delivery_filter_forbidden_on_signals
    (a : agent_t) (mbox : Nat) (msg : msg_type_t) (f : Nat) :
    (msg.m_signal = true →
        a.so_set_delivery_filter mbox msg f
          = .error .rc_delivery_filter_cannot_be_used_for_signal)
    ∧ (msg.m_signal = false →
        a.so_set_delivery_filter mbox msg f
            = .ok { a with m_delivery_filters :=
                a.m_delivery_filters.set_delivery_filter (mbox, msg.m_index) f }
          ∧ ∀ a2, a.so_set_delivery_filter mbox msg f = .ok a2 →
              a2.m_delivery_filters.has_filter (mbox, msg.m_index) = true) := by
  constructor
  · intro h
    unfold agent_t.so_set_delivery_filter ensure_not_signal
    rw [if_pos h]
  · intro h
    have hok : a.so_set_delivery_filter mbox msg f
        = .ok { a with m_delivery_filters :=
            a.m_delivery_filters.set_delivery_filter (mbox, msg.m_index) f } := by
      unfold agent_t.so_set_delivery_filter ensure_not_signal
      rw [if_neg (by simp [h])]
    refine ⟨hok, ?_⟩
    intro a2 h2
    rw [hok] at h2
    cases h2
    exact delivery_filter_storage_t.set_delivery_filter_has _ _ _

/-- Witness for C6: on a concrete agent, setting a delivery filter for a
signal type fails with the filters-forbidden-for-signals error, and setting
one for a non-signal type of the same type index succeeds. -/
theorem C6_delivery_filter_forbidden_on_signals_witness :
    ({ id := 0, st_default := ⟨0, 0⟩, m_current_state_ptr := ⟨0, 0⟩,
       m_subscriptions := ⟨[]⟩, m_event_queue := none,
       m_working_thread_id := 0,
       m_delivery_filters := ⟨[]⟩ } : agent_t).so_set_delivery_filter 1
        ⟨2, true⟩ 9
      = .error .rc_delivery_filter_cannot_be_used_for_signal
    ∧ ({ id := 0, st_default := ⟨0, 0⟩, m_current_state_ptr := ⟨0, 0⟩,
         m_subscriptions := ⟨[]⟩, m_event_queue := none,
         m_working_thread_id := 0,
         m_delivery_filters := ⟨[]⟩ } : agent_t).so_set_delivery_filter 1
          ⟨2, false⟩ 9
        = .ok { id := 0, st_default := ⟨0, 0⟩, m_current_state_ptr := ⟨0, 0⟩,
                m_subscriptions := ⟨[]⟩, m_event_queue := none,
                m_working_thread_id := 0,
                m_delivery_filters := ⟨[((1, 2), 9)]⟩ } :=
  ⟨(C6_delivery_filter_forbidden_on_signals
      { id := 0, st_default := ⟨0, 0⟩, m_current_state_ptr := ⟨0, 0⟩,
        m_subscriptions := ⟨[]⟩, m_event_queue := none,
        m_working_thread_id := 0, m_delivery_filters := ⟨[]⟩ }
      1 ⟨2, true⟩ 9).1 rfl,
   ((C6_delivery_filter_forbidden_on_signals
      { id := 0, st_default := ⟨0, 0⟩, m_current_state_ptr := ⟨0, 0⟩,
        m_subscriptions := ⟨[]⟩, m_event_queue := none,
        m_working_thread_id := 0, m_delivery_filters := ⟨[]⟩ }
      1 ⟨2, false⟩ 9).2 rfl).1⟩

/-- C9 (demand push after unbind is a silent no-op): once `shutdown_agent`
has reset the event-queue pointer, `push_event` and `push_service_request`
leave the agent completely unchanged — no demand is enqueued, no error is
raised, no other field is modified; more generally this holds for any agent
whose event-queue pointer is null. -/
theorem C9_push_after_unbind_is_noop
    (a : agent_t) (mbox mt msg : Nat) :
    a.shutdown_agent.push_event mbox mt msg = a.shutdown_agent
    ∧ a.shutdown_agent.push_service_request mbox mt msg = a.shutdown_agent
    ∧ (a.m_event_queue = none →
        a.push_event mbox mt msg = a
        ∧ a.push_service_request mbox mt msg = a) := by
  refine ⟨rfl, rfl, ?_⟩
  intro h
  constructor
  · unfold agent_t.push_event
    rw [h]
  · unfold agent_t.push_service_request
    rw [h]

/-- Witness for C9: a concrete unbound agent (null event-queue pointer)
absorbs `push_event` and `push_service_request` without any change. -/
theorem C9_push_after_unbind_is_noop_witness :
    ({ id := 0, st_default := ⟨0, 0⟩, m_current_state_ptr := ⟨0, 0⟩,
       m_subscriptions := ⟨[]⟩, m_event_queue := none,
       m_working_thread_id := 0,
       m_delivery_filters := ⟨[]⟩ } : agent_t).push_event 1 2 3
      = { id := 0, st_default := ⟨0, 0⟩, m_current_state_ptr := ⟨0, 0⟩,
          m_subscriptions := ⟨[]⟩, m_event_queue := none,
          m_working_thread_id := 0, m_delivery_filters := ⟨[]⟩ }
    ∧ ({ id := 0, st_default := ⟨0, 0⟩, m_current_state_ptr := ⟨0, 0⟩,
         m_subscriptions := ⟨[]⟩, m_event_queue := none,
         m_working_thread_id := 0,
         m_delivery_filters := ⟨[]⟩ } : agent_t).push_service_request 1 2 3
      = { id := 0, st_default := ⟨0, 0⟩, m_current_state_ptr := ⟨0, 0⟩,
          m_subscriptions := ⟨[]⟩, m_event_queue := none,
          m_working_thread_id := 0, m_delivery_filters := ⟨[]⟩ } :=
  (C9_push_after_unbind_is_noop
    { id := 0, st_default := ⟨0, 0⟩, m_current_state_ptr := ⟨0, 0⟩,
      m_subscriptions := ⟨[]⟩, m_event_queue := none,
      m_working_thread_id := 0, m_delivery_filters := ⟨[]⟩ } 1 2 3).2.2 rfl

/-- C2 (lifecycle bracketing): for every sequence of lifecycle operations,
the trace of demands the agent has executed is `on_start`, then user events,
closed by `on_finish` when the agent has finished: `on_start` is the first
demand ever executed, `on_finish` (when present) is the last, each executes
at most once — exactly once in a completed lifecycle — and no user event
runs outside the bracket. -/
theorem C2_lifecycle_bracketing (ops : List lifecycle_op_t) :
    (∃ es, user_only es ∧
      ((lifecycle_run ops).executed = []
        ∨ (lifecycle_run ops).executed = .evt_start :: es
        ∨ (lifecycle_run ops).executed
            = .evt_start :: es ++ [.evt_finish]))
    ∧ ((lifecycle_run ops).executed ≠ [] →
        (lifecycle_run ops).executed.head? = some .evt_start)
    ∧ (lifecycle_run ops).executed.count .evt_start ≤ 1
    ∧ (lifecycle_run ops).executed.count .evt_finish ≤ 1
    ∧ (.evt_finish ∈ (lifecycle_run ops).executed →
        (lifecycle_run ops).executed.getLast? = some .evt_finish
        ∧ (lifecycle_run ops).executed.count .evt_start = 1
        ∧ (lifecycle_run ops).executed.count .evt_finish = 1) := by
  obtain ⟨es, hes, hsh⟩ :=
    lifecycle_executed_shape _ (lifecycle_inv_run ops)
  have hcs0 : es.count lifecycle_demand_t.evt_start = 0 :=
    List.count_eq_zero.mpr (user_only_no_start hes)
  have hcf0 : es.count lifecycle_demand_t.evt_finish = 0 :=
    List.count_eq_zero.mpr (user_only_no_finish hes)
  rcases hsh with h | h | h <;> rw [h]
  · refine ⟨⟨es, hes, Or.inl rfl⟩, fun hne => absurd rfl hne, ?_, ?_, ?_⟩
    · simp
    · simp
    · intro hmem
      exact absurd hmem (List.not_mem_nil _)
  · refine ⟨⟨es, hes, Or.inr (Or.inl rfl)⟩, fun _ => rfl, ?_, ?_, ?_⟩
    · simp [List.count_cons, hcs0]
    · simp [List.count_cons, hcf0]
    · intro hmem
      rcases List.mem_cons.mp hmem with hx | hx
      · cases hx
      · exact absurd hx (user_only_no_finish hes)
  · refine ⟨⟨es, hes, Or.inr (Or.inr rfl)⟩, fun _ => rfl, ?_, ?_, ?_⟩
    · simp [List.count_cons, List.count_append, hcs0]
    · simp [List.count_cons, List.count_append, hcf0]
    · refine fun _ => ⟨?_, ?_, ?_⟩
      · exact List.getLast?_concat _
      · simp [List.count_cons, List.count_append, hcs0]
      · simp [List.count_cons, List.count_append, hcf0]

/-- Witness for C2: a concrete full lifecycle — define, bind, deliver,
serve all demands, deregister — executes `on_start` first, `on_finish` last,
each exactly once. -/
theorem C2_lifecycle_bracketing_witness :
    (lifecycle_run [.so_define, .bind_to_dispatcher, .deliver 5, .serve,
        .serve, .start_deregistration, .deliver 6, .serve,
        .serve]).executed.head? = some .evt_start
    ∧ (lifecycle_run [.so_define, .bind_to_dispatcher, .deliver 5, .serve,
        .serve, .start_deregistration, .deliver 6, .serve,
        .serve]).executed.getLast? = some .evt_finish
    ∧ (lifecycle_run [.so_define, .bind_to_dispatcher, .deliver 5, .serve,
        .serve, .start_deregistration, .deliver 6, .serve,
        .serve]).executed.count .evt_start = 1
    ∧ (lifecycle_run [.so_define, .bind_to_dispatcher, .deliver 5, .serve,
        .serve, .start_deregistration, .deliver 6, .serve,
        .serve]).executed.count .evt_finish = 1 :=
  ⟨(C2_lifecycle_bracketing [.so_define, .bind_to_dispatcher, .deliver 5,
      .serve, .serve, .start_deregistration, .deliver 6, .serve,
      .serve]).2.1 (by decide),
   ((C2_lifecycle_bracketing [.so_define, .bind_to_dispatcher, .deliver 5,
      .serve, .serve, .start_deregistration, .deliver 6, .serve,
      .serve]).2.2.2.2 (by decide)).1,
   ((C2_lifecycle_bracketing [.so_define, .bind_to_dispatcher, .deliver 5,
      .serve, .serve, .start_deregistration, .deliver 6, .serve,
      .serve]).2.2.2.2 (by decide)).2.1,
   ((C2_lifecycle_bracketing [.so_define, .bind_to_dispatcher, .deliver 5,
      .serve, .serve, .start_deregistration, .deliver 6, .serve,
      .serve]).2.2.2.2 (by decide)).2.2⟩

/-- C7 (shutdown is idempotent and stops intake): once `stop_service` has
run, every `pop` returns the `shutting_down` status extracting nothing and
leaving the queue as it is, every `push` throws the new demand away leaving
the queue as it is, and a second `stop_service` leaves the queue in exactly
the state the first one produced. -/
theorem C7_shutdown_idempotent_and_stops_intake
    (q : demand_queue_t) (d : execution_demand_t) :
    q.stop_service.pop = (.shutting_down, [], q.stop_service)
    ∧ q.stop_service.push d = q.stop_service
    ∧ q.stop_service.stop_service = q.stop_service := by
  refine ⟨?_, ?_, rfl⟩
  · simp [demand_queue_t.pop, demand_queue_t.stop_service]
  · simp [demand_queue_t.push, demand_queue_t.stop_service]

theorem dereg_after_reg_append_reg (l : List coop_notice_t) (n : Nat) :
    ∀ seen, dereg_after_reg (l ++ [.coop_reg n]) seen
      = dereg_after_reg l seen := by
  induction l with
  | nil => intro seen; rfl
  | cons x rest ih =>
    intro seen
    cases x with
    | coop_reg m => simpa [dereg_after_reg] using ih (m :: seen)
    | coop_dereg m r => simp [dereg_after_reg, ih seen]

theorem mem_reg_names {l : List coop_notice_t} {n : Nat}
    (h : coop_notice_t.coop_reg n ∈ l) : n ∈ reg_names l := by
  simp only [reg_names, List.mem_filterMap]
  exact ⟨.coop_reg n, h, rfl⟩

theorem dereg_after_reg_append_dereg (l : List coop_notice_t) (n : Nat)
    (r : dereg_reason_t) :
    ∀ seen, dereg_after_reg l seen = true →
      (n ∈ reg_names l ∨ n ∈ seen) →
      dereg_after_reg (l ++ [.coop_dereg n r]) seen = true := by
  induction l with
  | nil =>
    intro seen _ hn
    rcases hn with hn | hn
    · simp [reg_names] at hn
    · simp [dereg_after_reg, hn]
  | cons x rest ih =>
    intro seen hT hn
    cases x with
    | coop_reg m =>
      simp only [List.cons_append, dereg_after_reg] at hT ⊢
      apply ih (m :: seen) hT
      rcases hn with hn | hn
      · rcases (by simpa [reg_names, List.filterMap_cons] using hn
            : n = m ∨ n ∈ reg_names rest) with h | h
        · right
          rw [h]
          exact List.mem_cons_self m seen
        · left
          exact h
      · right
        exact List.mem_cons_of_mem _ hn
    | coop_dereg m r2 =>
      simp only [List.cons_append, dereg_after_reg,
        Bool.and_eq_true] at hT ⊢
      obtain ⟨hc, hrest⟩ := hT
      refine ⟨hc, ih seen hrest ?_⟩
      rcases hn with hn | hn
      · left
        simpa [reg_names, List.filterMap_cons] using hn
      · right
        exact hn

theorem registry_inv_dereg (r : registry_t)
    (h1 : no_dereg_before_reg r.observed = true)
    (h2 : ∀ c ∈ r.registered, c.has_notificators = true →
        coop_notice_t.coop_reg c.name ∈ r.observed)
    (name : Nat) (reason : dereg_reason_t) :
    no_dereg_before_reg (registry_dereg r name reason).observed = true
    ∧ ∀ c ∈ (registry_dereg r name reason).registered,
        c.has_notificators = true →
          coop_notice_t.coop_reg c.name
            ∈ (registry_dereg r name reason).observed := by
  cases hf : r.registered.find? (fun c => c.name == name) with
  | none =>
    simp only [registry_dereg, hf]
    exact ⟨h1, h2⟩
  | some c =>
    have hmem : c ∈ r.registered := List.mem_of_find?_eq_some hf
    have hcn : c.name = name := by
      have := List.find?_some hf
      simpa using this
    simp only [registry_dereg, hf]
    constructor
    · by_cases hnot : c.has_notificators = true
      · rw [if_pos hnot]
        unfold no_dereg_before_reg
        refine dereg_after_reg_append_dereg _ _ _ [] h1 (Or.inl ?_)
        rw [← hcn]
        exact mem_reg_names (h2 c hmem hnot)
      · rw [if_neg hnot]
        simpa using h1
    · intro c2 hc2 hnot2
      have hc2r : c2 ∈ r.registered := List.mem_of_mem_filter hc2
      exact List.mem_append_left _ (h2 c2 hc2r hnot2)

theorem registry_inv_step (r : registry_t) (op : registry_op_t)
    (h1 : no_dereg_before_reg r.observed = true)
    (h2 : ∀ c ∈ r.registered, c.has_notificators = true →
        coop_notice_t.coop_reg c.name ∈ r.observed) :
    no_dereg_before_reg (registry_step r op).observed = true
    ∧ ∀ c ∈ (registry_step r op).registered, c.has_notificators = true →
        coop_notice_t.coop_reg c.name ∈ (registry_step r op).observed := by
  cases op with
  | register c =>
    by_cases hdup : (r.registered.map coop_t.name).contains c.name = true
    · simp only [registry_step, hdup, if_true]
      exact ⟨h1, h2⟩
    · simp only [registry_step]
      rw [if_neg hdup]
      constructor
      · by_cases hnot : c.has_notificators = true
        · rw [if_pos hnot]
          unfold no_dereg_before_reg
          rw [dereg_after_reg_append_reg]
          exact h1
        · rw [if_neg hnot]
          simpa using h1
      · intro c2 hc2 hnot2
        rcases List.mem_append.mp hc2 with hold | hnew
        · exact List.mem_append_left _ (h2 c2 hold hnot2)
        · have : c2 = c := List.mem_singleton.mp hnew
          subst this
          rw [if_pos hnot2]
          exact List.mem_append_right _ (List.mem_singleton.mpr rfl)
  | serve_start name =>
    by_cases hpend : r.pending_start.contains name = true
    · cases hf : r.registered.find? (fun c => c.name == name) with
      | none =>
        simp only [registry_step, hpend, if_true, hf]
        exact ⟨h1, h2⟩
      | some c =>
        simp only [registry_step, hpend, if_true, hf]
        by_cases hth : c.throws_on_start = true
        · rw [if_pos hth]
          exact registry_inv_dereg
            { r with pending_start := r.pending_start.erase name }
            h1 h2 name .unhandled_exception
        · rw [if_neg hth]
          exact ⟨h1, h2⟩
    · simp only [registry_step]
      rw [if_neg hpend]
      exact ⟨h1, h2⟩
  | deregister name reason =>
    exact registry_inv_dereg r h1 h2 name reason

theorem registry_run_inv (ops : List registry_op_t) :
    no_dereg_before_reg (registry_run ops).observed = true
    ∧ ∀ c ∈ (registry_run ops).registered, c.has_notificators = true →
        coop_notice_t.coop_reg c.name ∈ (registry_run ops).observed := by
  suffices h : ∀ (r : registry_t),
      no_dereg_before_reg r.observed = true →
      (∀ c ∈ r.registered, c.has_notificators = true →
          coop_notice_t.coop_reg c.name ∈ r.observed) →
      no_dereg_before_reg (ops.foldl registry_step r).observed = true
      ∧ ∀ c ∈ (ops.foldl registry_step r).registered,
          c.has_notificators = true →
            coop_notice_t.coop_reg c.name ∈ (ops.foldl registry_step r).observed by
    exact h registry_init rfl (by intro c hc; cases hc)
  induction ops with
  | nil => intro r hr1 hr2; exact ⟨hr1, hr2⟩
  | cons op rest ih =>
    intro r hr1 hr2
    obtain ⟨h1, h2⟩ := registry_inv_step r op hr1 hr2
    exact ih _ h1 h2

/-- C8 (cooperation-notification ordering on child failure): in the S2
scenario — a child coop carrying registration and deregistration
notificators whose agent throws in `so_evt_start` under the deregister-coop
reaction — the observed sequence is exactly the registration notification
followed by the deregistration notification with reason
unhandled-exception; and over every operation sequence, a deregistration
notification never precedes the matching registration notification. -/
theorem C8_coop_notification_ordering :
    (registry_run [.register ⟨1, true, true⟩, .serve_start 1]).observed
      = [.coop_reg 1, .coop_dereg 1 .unhandled_exception]
    ∧ ∀ ops : List registry_op_t,
        no_dereg_before_reg (registry_run ops).observed = true := by
  exact ⟨by decide, fun ops => (registry_run_inv ops).1⟩

end SO5


